import Mathlib

/-!
Authentication pipeline of the Express user API.

A shallow embedding of `src/utils/jwtFunctions.js`,
`src/middleware/AuthenticationMiddleware.js` and `src/controllers/UserController.js`.

* JavaScript strings are lists of characters (`Str`).  Header text and decoded
  credentials only hold characters that are one UTF-16 code unit each, so list
  positions are string positions; `jsLength` counts code units where the text is
  arbitrary (the registration body).
* The `jsonwebtoken` package and the Node `Buffer` base64 codec are the platform;
  the first is a parameter (`JwtLib`), the second is modelled (`bufferFromBase64`).
* The Mongoose `UserModel` entity is not among the sources; it is modelled by
  `User` and `UserModel`.
* Every middleware returns the request as it leaves it, the way it left the step
  (`next()`, `next(err)` or a rejected promise) and the store and token calls it made.
-/

namespace AdvancedExpress

/-! ## JavaScript strings -/

/-- A JavaScript string, as the list of its characters. -/
abbrev Str := List Char

/-- The `length` of a string: its number of UTF-16 code units. -/
def jsLength (s : Str) : Nat :=
  (s.map fun c => if c.toNat < 65536 then 1 else 2).sum

/-- The test of `String.prototype.startsWith`. -/
def startsWith (s pre : Str) : Bool := pre.isPrefixOf s

/-- The method `s.substring(start, stop)`: both indices are clamped to `[0, s.length]`
and swapped when `start > stop`. -/
def substring (s : Str) (start stop : Int) : Str :=
  let a := min start.toNat s.length
  let b := min stop.toNat s.length
  (s.drop (min a b)).take (max a b - min a b)

/-- The method `s.substring(start)`: the end index defaults to `s.length`. -/
def substringFrom (s : Str) (start : Int) : Str := substring s start s.length

/-- The method `s.indexOf(c)` for a one-character needle: the position of the first
occurrence, or `-1`. -/
def indexOf (s : Str) (c : Char) : Int :=
  if c ∈ s then (s.indexOf c : Int) else -1

/-- The characters `String.prototype.trim` removes: ECMAScript white space and line
terminators. -/
def isJsWhitespace (c : Char) : Bool :=
  let n := c.toNat
  (9 ≤ n && n ≤ 13) || n == 32 || n == 160 || n == 5760 || (8192 ≤ n && n ≤ 8202)
    || n == 8232 || n == 8233 || n == 8239 || n == 8287 || n == 12288 || n == 65279

/-- The method `s.trim()`. -/
def trim (s : Str) : Str :=
  ((s.dropWhile isJsWhitespace).reverse.dropWhile isJsWhitespace).reverse

/-! ## The base64 codec of `Buffer` -/

/-- The value of a base64 digit; the decoder of `Buffer` reads the standard and the
URL-safe alphabet alike. -/
def unbase64 (c : Char) : Option Nat :=
  if 'A' ≤ c ∧ c ≤ 'Z' then some (c.toNat - 65)
  else if 'a' ≤ c ∧ c ≤ 'z' then some (c.toNat - 97 + 26)
  else if '0' ≤ c ∧ c ≤ '9' then some (c.toNat - 48 + 52)
  else if c = '+' ∨ c = '-' then some 62
  else if c = '/' ∨ c = '_' then some 63
  else none

/-- The digits read from a base64 text: reading stops at the first `=`, and a
character outside the alphabet is skipped. -/
def sextets (s : Str) : List Nat :=
  (s.takeWhile fun c => c != '=').filterMap unbase64

/-- Four digits make three bytes; a last group of three makes two bytes, of two one
byte, and a single left-over digit none. -/
def packBytes : List Nat → List Nat
  | a :: b :: c :: d :: rest =>
      (a * 4 + b / 16) :: ((b % 16) * 16 + c / 4) :: ((c % 4) * 64 + d) :: packBytes rest
  | [a, b, c] => [a * 4 + b / 16, (b % 16) * 16 + c / 4]
  | [a, b] => [a * 4 + b / 16]
  | _ => []

/-- The bytes of `Buffer.from(s, 'base64')`. -/
def bufferFromBase64 (s : Str) : List Nat := packBytes (sextets s)

/-- The text of `buffer.toString('ascii')`: the high bit of every byte is cleared. -/
def bufferToAscii (bytes : List Nat) : Str := bytes.map fun b => Char.ofNat (b % 128)

/-- The standard base64 alphabet. -/
def base64Alphabet : Str :=
  "ABCDEFGHIJKLMNOPQRSTUVWXYZabcdefghijklmnopqrstuvwxyz0123456789+/".toList

/-- The base64 digit of a value below 64. -/
def base64Char (n : Nat) : Char := base64Alphabet.getD n 'A'

/-- The digits a base64 encoder writes for a list of bytes. -/
def encodeSextets : List Nat → List Nat
  | a :: b :: c :: rest =>
      (a / 4) :: ((a % 4) * 16 + b / 16) :: ((b % 16) * 4 + c / 64) :: (c % 64)
        :: encodeSextets rest
  | [a, b] => [a / 4, (a % 4) * 16 + b / 16, (b % 16) * 4]
  | [a] => [a / 4, (a % 4) * 16]
  | [] => []

/-- The `=` padding of a base64 encoding of `n` bytes. -/
def base64Padding (n : Nat) : Str :=
  if n % 3 = 1 then ['=', '='] else if n % 3 = 2 then ['='] else []

/-- The standard base64 encoding of a list of bytes, the `base64(...)` a client
applies to its credential. -/
def base64Encode (bytes : List Nat) : Str :=
  (encodeSextets bytes).map base64Char ++ base64Padding bytes.length

/-- The base64 encoding of a text, character codes taken as bytes. -/
def base64EncodeText (text : Str) : Str := base64Encode (text.map Char.toNat)

/-! ## Parsing the Basic credential (`verifyBasicUserAuth`, lines 29-44) -/

/-- The object `objDecodedAuth`. -/
structure Credential where
  email : Str
  password : Str
  deriving DecidableEq, Repr

/-- Lines 31-33: a header that starts with `"Basic "` loses its first five characters
and is trimmed; any other header is kept as it is. -/
def stripBasic (authHeader : Str) : Str :=
  if startsWith authHeader "Basic ".toList then trim (substringFrom authHeader 5)
  else authHeader

/-- Line 37: the decoded text `decodedAuth`. -/
def decodeAuth (authHeader : Str) : Str :=
  bufferToAscii (bufferFromBase64 (stripBasic authHeader))

/-- Lines 41-43: the credential cut out of the decoded text around `indexOf(":")`. -/
def splitCredential (decodedAuth : Str) : Credential :=
  { email := substring decodedAuth 0 (indexOf decodedAuth ':')
    password := substringFrom decodedAuth (indexOf decodedAuth ':' + 1) }

/-- Lines 31-43 together: the credential `verifyBasicUserAuth` reads from a header. -/
def parseBasicAuth (authHeader : Str) : Credential :=
  splitCredential (decodeAuth authHeader)

/-! ## Values, errors and the user store -/

/-- An error object: its `name` and its `message`. -/
structure JsError where
  name : String
  message : String
  deriving DecidableEq, Repr

/-- The expression `new Error(message)`. -/
def mkError (message : String) : JsError := ⟨"Error", message⟩

/-- The error of reading a property of `undefined` or `null`. -/
def typeError (base key : String) : JsError :=
  ⟨"TypeError", "Cannot read properties of " ++ base ++ " (reading " ++ key ++ ")"⟩

/-- Modelled from the spec: the `User` entity of `src/database/entities/User`, which
is not among the sources.  A stored document has the fields the sources name: its
id, the unique `email`, and the `password` hash and `salt` that
`select({ password: 0, salt: 0 })` leaves out. -/
structure User where
  id : Str
  email : Str
  password : Str
  salt : Str
  deriving DecidableEq, Repr

/-- The JavaScript values that flow through the pipeline. -/
inductive JsVal where
  | undefined
  | null
  | bool (b : Bool)
  | num (n : Int)
  | str (s : Str)
  | doc (u : User)
  | obj (fields : List (String × JsVal))

/-- The own properties of a plain object, in insertion order. -/
abbrev Fields := List (String × JsVal)

/-- The value of property `k` of a plain object, `undefined` when there is none. -/
def getField : Fields → String → JsVal
  | [], _ => .undefined
  | (k', v) :: rest, k => if k' = k then v else getField rest k

/-- The assignment of property `k`: an existing property keeps its place, a new one
goes last, as in an object literal after a spread. -/
def setField : Fields → String → JsVal → Fields
  | [], k, v => [(k, v)]
  | (k', v') :: rest, k, v =>
      if k' = k then (k', v) :: rest else (k', v') :: setField rest k v

/-- The spread `{...x}` of a value that is `undefined` or a plain object. -/
def spread : Option Fields → Fields
  | none => []
  | some fs => fs

/-- The persisted fields of a user document, as `toJSON` lists them. -/
def User.fields (u : User) : Fields :=
  [("_id", .str u.id), ("email", .str u.email), ("password", .str u.password),
    ("salt", .str u.salt)]

/-- The truthiness of a value. -/
def truthy : JsVal → Bool
  | .undefined => false
  | .null => false
  | .bool b => b
  | .num n => n != 0
  | .str s => !s.isEmpty
  | .doc _ => true
  | .obj _ => true

/-- The property read `v.k` for the property names the sources read (`id`,
`validJwt`, `userId`): it throws on `undefined` and `null`, a document answers `id`
with its id, and a primitive has none of these properties. -/
def getProp (v : JsVal) (k : String) : Except JsError JsVal :=
  match v with
  | .undefined => .error (typeError "undefined" k)
  | .null => .error (typeError "null" k)
  | .obj fs => .ok (getField fs k)
  | .doc u => .ok (if k = "id" then .str u.id else getField u.fields k)
  | _ => .ok .undefined

/-- The field names of a value sent as JSON. -/
def fieldNames : JsVal → List String
  | .doc u => u.fields.map Prod.fst
  | .obj fs => fs.map Prod.fst
  | _ => []

/-- Modelled from the spec: the identity store `UserModel` of
`src/database/entities/User`, which is not among the sources: the stored documents,
the record-level password check `isMatchingPassword` and the outcome of `create`. -/
structure UserModel where
  users : List User
  isMatchingPassword : User → Str → Bool
  create : Option Str → Option Str → Except JsError User

/-- The query `UserModel.findOne({email: email})`. -/
def UserModel.findOneByEmail (db : UserModel) (email : Str) : Option User :=
  db.users.find? fun u => decide (u.email = email)

/-- The query `UserModel.findOne({_id: id})`: only a string id names a document. -/
def UserModel.findOneById (db : UserModel) (id : JsVal) : Option User :=
  match id with
  | .str s => db.users.find? fun u => decide (u.id = s)
  | _ => none

/-- The query `UserModel.findById(id).select(...)` with the named fields set to `0`:
the document without them, or `null`. -/
def UserModel.findByIdSelect (db : UserModel) (id : Str) (excluded : List String) : JsVal :=
  match db.users.find? fun u => decide (u.id = id) with
  | some u => .obj (u.fields.filter fun f => decide (f.1 ∉ excluded))
  | none => .null

/-- The calls a step makes on the store, and the tokens it mints. -/
inductive Effect where
  | findOneByEmail (email : Str)
  | isMatchingPassword (user : User) (candidate : Str)
  | findOneById (id : JsVal)
  | findByIdSelect (id : Str)
  | create (email password : Option Str)
  | mint (token : Str)

/-! ## Tokens (`src/utils/jwtFunctions.js`) -/

/-- The `jsonwebtoken` package: `sign payload secret expiresIn now` is the token text
and `verify token secret now` the decoded payload or the error thrown. -/
structure JwtLib where
  sign : JsVal → Str → Nat → Nat → Str
  verify : Str → Str → Nat → Except JsError JsVal

/-- The process environment and the clock. -/
structure Env where
  JWT_SECRET : Option Str
  now : Nat

/-- The secret when `process.env.JWT_SECRET` is truthy: set and not empty. -/
def Env.secret (env : Env) : Option Str :=
  match env.JWT_SECRET with
  | some s => if s.isEmpty then none else some s
  | none => none

/-- The number of seconds of `expiresIn: "1d"`. -/
def oneDay : Nat := 86400

/-- The function `generateJWT(targetUser)`. -/
def generateJWT (jwt : JwtLib) (env : Env) (targetUser : JsVal) : Except JsError Str :=
  match getProp targetUser "id" with
  | .error e => .error e
  | .ok userId =>
    match env.secret with
    | none => .error (mkError "Server environment configuration failure on token creation.")
    | some secret => .ok (jwt.sign (.obj [("userId", userId)]) secret oneDay env.now)

/-- The object `validateJWT` returns. -/
structure Validated where
  decodedValidToken : JsVal
  tokenUser : User

/-- The function `validateJWT(targetJwt)`, with the store calls it made. -/
def validateJWT (jwt : JwtLib) (db : UserModel) (env : Env) (targetJwt : Str) :
    List Effect × Except JsError Validated :=
  match env.secret with
  | none =>
    ([], .error (mkError "Server environment configuration failure on token validation."))
  | some secret =>
    match jwt.verify targetJwt secret env.now with
    | .error e => ([], .error e)
    | .ok validJwt =>
      match getProp validJwt "validJwt" with
      | .error e => ([], .error e)
      | .ok inner =>
        match getProp inner "userId" with
        | .error e => ([], .error e)
        | .ok userId =>
          match db.findOneById userId with
          | none => ([.findOneById userId], .error (mkError "User not found for provided token."))
          | some tokenUser => ([.findOneById userId], .ok ⟨validJwt, tokenUser⟩)

/-! ## The middleware (`src/middleware/AuthenticationMiddleware.js`) -/

/-- The body of a registration request: each field is absent or a string. -/
structure RegisterBody where
  email : Option Str
  password : Option Str

/-- The parts of the request the pipeline reads and writes: the `authorization`
header, `request.authentication` (`undefined` or a plain object), the route
parameter `targetUserId` and the body. -/
structure Request where
  authorization : Option Str
  authentication : Option Fields
  targetUserId : Str
  body : RegisterBody

/-- The way a middleware leaves: `next()`, `next(err)`, or the rejection of its
promise by an error thrown outside any `try`. -/
inductive Signal where
  | next
  | nextErr (e : JsError)
  | rejected (e : JsError)
  deriving DecidableEq, Repr

/-- The result of running a middleware. -/
structure Step where
  request : Request
  signal : Signal
  effects : List Effect

/-- The expression `request.authentication?.user`. -/
def authUser (req : Request) : JsVal :=
  match req.authentication with
  | none => .undefined
  | some fs => getField fs "user"

/-- The error of both middleware for a request without an `authorization` header. -/
def noAuthData : JsError := mkError "No auth data detected on a basic login endpoint."

/-- The error `verifyBasicUserAuth` passes on when no user has the given email. -/
def noUserFound : JsError := mkError "No user found for the given auth data."

/-- The error `verifyBasicUserAuth` passes on when the password does not match. -/
def noUserMatches : JsError := mkError "No user matches the given auth data."

/-- The middleware `verifyBasicUserAuth`. -/
def verifyBasicUserAuth (db : UserModel) (req : Request) : Step :=
  match req.authorization with
  | none => ⟨req, .nextErr noAuthData, []⟩
  | some authHeader =>
    let objDecodedAuth := parseBasicAuth authHeader
    match db.findOneByEmail objDecodedAuth.email with
    | none =>
      ⟨req, .nextErr noUserFound, [.findOneByEmail objDecodedAuth.email]⟩
    | some foundUser =>
      if db.isMatchingPassword foundUser objDecodedAuth.password then
        ⟨{ req with
            authentication :=
              some (setField (setField (spread req.authentication) "id" (.str foundUser.id))
                "user" (.doc foundUser)) },
          .next,
          [.findOneByEmail objDecodedAuth.email,
            .isMatchingPassword foundUser objDecodedAuth.password]⟩
      else
        ⟨req, .nextErr noUserMatches,
          [.findOneByEmail objDecodedAuth.email,
            .isMatchingPassword foundUser objDecodedAuth.password]⟩

/-- The error `createJwt` passes on when no user is attached to the request. -/
def createJwtError : JsError :=
  mkError "Something went wrong with your session, please sign out and log in again later."

/-- The middleware `createJwt`. -/
def createJwt (jwt : JwtLib) (env : Env) (req : Request) : Step :=
  if truthy (authUser req) then
    match generateJWT jwt env (authUser req) with
    | .error e => ⟨req, .rejected e, []⟩
    | .ok newJwt =>
      ⟨{ req with
          authentication := some (setField (spread req.authentication) "jwt" (.str newJwt)) },
        .next, [.mint newJwt]⟩
  else ⟨req, .nextErr createJwtError, []⟩

/-- Lines 118-120: a header that starts with `"Bearer "` loses its first seven
characters and is trimmed. -/
def stripBearer (authHeader : Str) : Str :=
  if startsWith authHeader "Bearer ".toList then trim (substringFrom authHeader 7)
  else authHeader

/-- The error `verifyJwt` passes on for an expired token. -/
def sessionExpired : JsError := mkError "Session expired, please log in again."

/-- The error `verifyJwt` passes on for every other failure of the validation. -/
def sessionInvalid : JsError :=
  mkError "Something went wrong with the session, please sign out and log in again later."

/-- The `catch` block of `verifyJwt`: the error passed on for a thrown error. -/
def sessionFailure (error : JsError) : JsError :=
  if error.name = "TokenExpiredError" then sessionExpired else sessionInvalid

/-- The middleware `verifyJwt`. -/
def verifyJwt (jwt : JwtLib) (db : UserModel) (env : Env) (req : Request) : Step :=
  match req.authorization with
  | none => ⟨req, .nextErr noAuthData, []⟩
  | some authHeader =>
    match validateJWT jwt db env (stripBearer authHeader) with
    | (effects, .error e) => ⟨req, .nextErr (sessionFailure e), effects⟩
    | (effects, .ok tokenVerificationResult) =>
      match generateJWT jwt env (.doc tokenVerificationResult.tokenUser) with
      | .error e => ⟨req, .nextErr (sessionFailure e), effects⟩
      | .ok fresherJwt =>
        ⟨{ req with
            authentication :=
              some (setField (setField (setField (spread req.authentication)
                "jwt" (.str fresherJwt))
                "id" (.str tokenVerificationResult.tokenUser.id))
                "user" (.doc tokenVerificationResult.tokenUser)) },
          .next, effects ++ [.mint fresherJwt]⟩

/-! ## The routes (`src/controllers/UserController.js`) -/

/-- The way a route ends: a JSON body sent, `next(err)`, or a rejected promise. -/
inductive Reply where
  | json (body : JsVal)
  | nextErr (e : JsError)
  | rejected (e : JsError)

/-- The result of running a route handler. -/
structure Handled where
  reply : Reply
  effects : List Effect

/-- The test `field?.length <= n` of the registration check: the length of an absent
field is `undefined`, and `undefined <= n` is false. -/
def lengthAtMost (field : Option Str) (n : Nat) : Bool :=
  match field with
  | none => false
  | some s => decide (jsLength s ≤ n)

/-- The error of the registration check. -/
def invalidRegistration : JsError := mkError "Invalid user registration data provided."

/-- The handler of `POST /register`. -/
def register (jwt : JwtLib) (db : UserModel) (env : Env) (req : Request) : Handled :=
  let newUserData := req.body
  if lengthAtMost newUserData.email 3 || lengthAtMost newUserData.password 8 then
    ⟨.nextErr invalidRegistration, []⟩
  else
    match db.create newUserData.email newUserData.password with
    | .error error => ⟨.nextErr (mkError error.message),
        [.create newUserData.email newUserData.password]⟩
    | .ok newUser =>
      match generateJWT jwt env (.doc newUser) with
      | .error error => ⟨.nextErr (mkError error.message),
          [.create newUserData.email newUserData.password]⟩
      | .ok newUserJwt =>
        ⟨.json (.obj [("data", .doc newUser), ("jwt", .str newUserJwt)]),
          [.create newUserData.email newUserData.password, .mint newUserJwt]⟩

/-- The final handler of `POST /login`. -/
def loginHandler (req : Request) : Handled :=
  match req.authentication with
  | none => ⟨.rejected (typeError "undefined" "jwt"), []⟩
  | some fs => ⟨.json (.obj [("jwt", getField fs "jwt")]), []⟩

/-- The comparison `request.authentication.id == request.params.targetUserId` for
the ids the middleware writes: a string id equals the parameter when the two texts
are the same, and `undefined` equals no string. -/
def idEqualsParam (id : JsVal) (targetUserId : Str) : Bool :=
  match id with
  | .str s => decide (s = targetUserId)
  | _ => false

/-- The final handler of `GET /:targetUserId`. -/
def getTargetUser (db : UserModel) (req : Request) : Handled :=
  match req.authentication with
  | none => ⟨.rejected (typeError "undefined" "id"), []⟩
  | some fs =>
    if idEqualsParam (getField fs "id") req.targetUserId then
      ⟨.json (.obj [("data", getField fs "user")]), []⟩
    else
      ⟨.json (.obj [("data", db.findByIdSelect req.targetUserId ["password", "salt"])]),
        [.findByIdSelect req.targetUserId]⟩

/-- A handler placed after a middleware: it runs when the middleware called
`next()`, and is skipped when the middleware passed an error or was rejected. -/
def Step.finish (s : Step) (handler : Request → Handled) : Handled :=
  match s.signal with
  | .next => ⟨(handler s.request).reply, s.effects ++ (handler s.request).effects⟩
  | .nextErr e => ⟨.nextErr e, s.effects⟩
  | .rejected e => ⟨.rejected e, s.effects⟩

/-- A middleware placed after a middleware, under the same rule. -/
def Step.andThen (s : Step) (middleware : Request → Step) : Step :=
  match s.signal with
  | .next =>
    ⟨(middleware s.request).request, (middleware s.request).signal,
      s.effects ++ (middleware s.request).effects⟩
  | _ => s

/-- The two middleware of the route `POST /login`, in order. -/
def loginSteps (jwt : JwtLib) (db : UserModel) (env : Env) (req : Request) : Step :=
  (verifyBasicUserAuth db req).andThen (createJwt jwt env)

/-- The route `POST /login`. -/
def loginRoute (jwt : JwtLib) (db : UserModel) (env : Env) (req : Request) : Handled :=
  (loginSteps jwt db env req).finish loginHandler

/-- The route `GET /:targetUserId`. -/
def targetUserRoute (jwt : JwtLib) (db : UserModel) (env : Env) (req : Request) : Handled :=
  (verifyJwt jwt db env req).finish (getTargetUser db)

/-- The value under `data` in a reply, when the reply is a JSON object. -/
def Reply.data : Reply → Option JsVal
  | .json (.obj fs) => some (getField fs "data")
  | _ => none

/-! ## A worked instance -/

/-- A token the example signing library recognises: its text, the key it was signed
with, the payload it carries and its expiry time. -/
structure Issued where
  token : Str
  key : Str
  payload : JsVal
  exp : Nat

/-- A signing library given by the tokens in circulation: `verify` rejects an
unknown text as malformed, a known text under another key as badly signed, a token
at or past its expiry as expired, and otherwise returns the payload. -/
def ledgerJwt (ledger : List Issued) (fresh : JsVal → Str → Nat → Nat → Str) : JwtLib where
  sign := fresh
  verify token key now :=
    match ledger.find? fun i => decide (i.token = token) with
    | none => .error ⟨"JsonWebTokenError", "jwt malformed"⟩
    | some i =>
      if i.key = key then
        if now < i.exp then .ok i.payload else .error ⟨"TokenExpiredError", "jwt expired"⟩
      else .error ⟨"JsonWebTokenError", "invalid signature"⟩

/-- A stored user. -/
def alice : User :=
  ⟨"u1".toList, "alice@x.co".toList, "NaCl:ss:ap".toList, "NaCl:".toList⟩

/-- A second stored user. -/
def bob : User :=
  ⟨"u2".toList, "bob@x.co".toList, "KCl:drowssap".toList, "KCl:".toList⟩

/-- A store with two users, whose password check compares the stored value with the
salt followed by the reversed candidate. -/
def sampleDb : UserModel where
  users := [alice, bob]
  isMatchingPassword u candidate := decide (u.password = u.salt ++ candidate.reverse)
  create email password :=
    match email, password with
    | some e, some p => .ok ⟨"u3".toList, e, "Na:".toList ++ p.reverse, "Na:".toList⟩
    | _, _ => .error ⟨"ValidationError", "User validation failed"⟩

/-- An environment with the signing secret set, at clock time 1000. -/
def sampleEnv : Env := ⟨some "s3cret".toList, 1000⟩

/-- The tokens in circulation in the examples: the token `generateJWT` mints for
alice at time 1000, a token signed over a payload that nests the user id under
`validJwt`, and a token that expired at time 900. -/
def sampleLedger : List Issued :=
  [ ⟨"tok.u1.87400".toList, "s3cret".toList,
      .obj [("userId", .str "u1".toList), ("iat", .num 1000), ("exp", .num 87400)], 87400⟩,
    ⟨"tok.nested".toList, "s3cret".toList,
      .obj [("validJwt", .obj [("userId", .str "u1".toList)]), ("iat", .num 1000),
        ("exp", .num 87400)], 87400⟩,
    ⟨"tok.old".toList, "s3cret".toList,
      .obj [("userId", .str "u1".toList), ("iat", .num 0), ("exp", .num 900)], 900⟩ ]

/-- The example signing library: every fresh token for a user id payload has the
text `tok.<id>.<expiry>`. -/
def sampleJwt : JwtLib :=
  ledgerJwt sampleLedger fun payload _ expiresIn now =>
    match payload with
    | .obj [(_, .str id)] =>
      "tok.".toList ++ id ++ ".".toList ++ (Nat.repr (now + expiresIn)).toList
    | _ => "tok.other".toList

/-- A request that carries only an `authorization` header. -/
def requestWith (authorization : Str) : Request :=
  ⟨some authorization, none, [], ⟨none, none⟩⟩

/-! ## Lemmas on the base64 codec -/

theorem base64Char_spec :
    ∀ n, n < 64 → unbase64 (base64Char n) = some n ∧ base64Char n ≠ '='
      ∧ isJsWhitespace (base64Char n) = false := by
  decide

theorem takeWhile_digits (xs : List Nat) (hx : ∀ x ∈ xs, x < 64) (n : Nat) :
    (xs.map base64Char ++ base64Padding n).takeWhile (fun c => c != '=')
      = xs.map base64Char := by
  induction xs with
  | nil =>
    unfold base64Padding
    split
    · rfl
    · split <;> rfl
  | cons x xs ih =>
    have h1 := (base64Char_spec x (hx x (List.mem_cons_self _ _))).2.1
    have h2 := ih fun y hy => hx y (List.mem_cons_of_mem _ hy)
    simp only [List.map_cons, List.cons_append, List.takeWhile_cons]
    simp [h1, h2]

theorem filterMap_digits (xs : List Nat) (hx : ∀ x ∈ xs, x < 64) :
    (xs.map base64Char).filterMap unbase64 = xs := by
  induction xs with
  | nil => rfl
  | cons x xs ih =>
    have h1 := (base64Char_spec x (hx x (List.mem_cons_self _ _))).1
    have h2 := ih fun y hy => hx y (List.mem_cons_of_mem _ hy)
    simp [List.filterMap_cons, h1, h2]

theorem sextets_digits (xs : List Nat) (hx : ∀ x ∈ xs, x < 64) (n : Nat) :
    sextets (xs.map base64Char ++ base64Padding n) = xs := by
  unfold sextets
  rw [takeWhile_digits xs hx n, filterMap_digits xs hx]

theorem encodeSextets_lt : ∀ (bytes : List Nat), (∀ b ∈ bytes, b < 256) →
    ∀ x ∈ encodeSextets bytes, x < 64
  | [], _, x, hx => by simp [encodeSextets] at hx
  | [a], h, x, hx => by
    have ha := h a (by simp)
    simp [encodeSextets] at hx
    omega
  | [a, b], h, x, hx => by
    have ha := h a (by simp)
    have hb := h b (by simp)
    simp [encodeSextets] at hx
    omega
  | a :: b :: c :: rest, h, x, hx => by
    have ha := h a (by simp)
    have hb := h b (by simp)
    have hc := h c (by simp)
    simp only [encodeSextets, List.mem_cons] at hx
    rcases hx with hx | hx | hx | hx | hx
    · omega
    · omega
    · omega
    · omega
    · exact encodeSextets_lt rest (fun y hy => h y (by simp [hy])) x hx

theorem packBytes_encodeSextets : ∀ (bytes : List Nat), (∀ b ∈ bytes, b < 256) →
    packBytes (encodeSextets bytes) = bytes
  | [], _ => rfl
  | [a], h => by
    have ha := h a (by simp)
    simp only [encodeSextets, packBytes]
    congr 1
    omega
  | [a, b], h => by
    have ha := h a (by simp)
    have hb := h b (by simp)
    simp only [encodeSextets, packBytes]
    congr 1
    · omega
    · congr 1
      omega
  | a :: b :: c :: rest, h => by
    have ha := h a (by simp)
    have hb := h b (by simp)
    have hc := h c (by simp)
    have ih := packBytes_encodeSextets rest (fun y hy => h y (by simp [hy]))
    simp only [encodeSextets, packBytes, ih]
    congr 1
    · omega
    · congr 1
      · omega
      · congr 1
        omega

/-- Decoding a standard base64 encoding gives the bytes back. -/
theorem bufferFromBase64_base64Encode (bytes : List Nat) (h : ∀ b ∈ bytes, b < 256) :
    bufferFromBase64 (base64Encode bytes) = bytes := by
  unfold bufferFromBase64 base64Encode
  rw [sextets_digits _ (encodeSextets_lt bytes h), packBytes_encodeSextets bytes h]

theorem bufferToAscii_codes (text : Str) (h : ∀ c ∈ text, c.toNat < 128) :
    bufferToAscii (text.map Char.toNat) = text := by
  induction text with
  | nil => rfl
  | cons c cs ih =>
    have hc := h c (List.mem_cons_self _ _)
    have := ih fun d hd => h d (List.mem_cons_of_mem _ hd)
    simp only [bufferToAscii, List.map_cons, List.map_map] at this ⊢
    rw [this, Nat.mod_eq_of_lt hc, Char.ofNat_toNat]

/-! ## Lemmas on the header text -/

theorem base64Encode_chars (bytes : List Nat) (h : ∀ b ∈ bytes, b < 256) :
    ∀ c ∈ base64Encode bytes, isJsWhitespace c = false := by
  intro c hc
  unfold base64Encode at hc
  rcases List.mem_append.1 hc with hc | hc
  · obtain ⟨x, hx, rfl⟩ := List.mem_map.1 hc
    exact (base64Char_spec x (encodeSextets_lt bytes h x hx)).2.2
  · unfold base64Padding at hc
    split at hc
    · simp at hc
      subst hc
      decide
    · split at hc
      · simp at hc
        subst hc
        decide
      · simp at hc

theorem dropWhile_of_clean (s : Str) (h : ∀ c ∈ s, isJsWhitespace c = false) :
    s.dropWhile isJsWhitespace = s := by
  cases s with
  | nil => rfl
  | cons c cs => simp [List.dropWhile_cons, h c (List.mem_cons_self _ _)]

theorem trim_of_clean (s : Str) (h : ∀ c ∈ s, isJsWhitespace c = false) : trim s = s := by
  unfold trim
  rw [dropWhile_of_clean s h, dropWhile_of_clean s.reverse (fun c hc => h c (List.mem_reverse.1 hc)),
    List.reverse_reverse]

theorem trim_space_cons (s : Str) (h : ∀ c ∈ s, isJsWhitespace c = false) :
    trim (' ' :: s) = s := by
  have h1 : (' ' :: s).dropWhile isJsWhitespace = s.dropWhile isJsWhitespace := by
    rw [List.dropWhile_cons]
    simp [show isJsWhitespace ' ' = true by decide]
  have h2 := trim_of_clean s h
  unfold trim at h2 ⊢
  rw [h1, h2]

theorem substringFrom_eq_drop (s : Str) (n : Nat) : substringFrom s n = s.drop n := by
  unfold substringFrom substring
  simp only [Int.toNat_ofNat, Nat.min_self]
  rcases Nat.le_total n s.length with h | h
  · rw [Nat.min_eq_left h, Nat.min_eq_left h, Nat.max_eq_right h]
    apply List.take_of_length_le
    simp
  · rw [Nat.min_eq_right h, Nat.min_self, Nat.max_self]
    simp [List.drop_of_length_le h]

theorem stripBasic_prefixed (s : Str) (h : ∀ c ∈ s, isJsWhitespace c = false) :
    stripBasic ("Basic ".toList ++ s) = s := by
  have hp : "Basic ".toList ++ s = 'B' :: 'a' :: 's' :: 'i' :: 'c' :: ' ' :: s := rfl
  unfold stripBasic
  rw [if_pos (by simp [startsWith]), hp, show (5 : Int) = ((5 : Nat) : Int) from rfl,
    substringFrom_eq_drop _ 5]
  exact trim_space_cons s h

theorem mem_of_startsWith : ∀ (s pre : Str), startsWith s pre = true → ∀ c ∈ pre, c ∈ s
  | _, [], _, c, hc => by cases hc
  | [], _ :: _, h, _, _ => by simp [startsWith, List.isPrefixOf] at h
  | a :: s, b :: pre, h, c, hc => by
    simp only [startsWith, List.isPrefixOf, Bool.and_eq_true, beq_iff_eq] at h
    rcases List.mem_cons.1 hc with hc | hc
    · rw [hc, h.1]
      exact List.mem_cons_self _ _
    · exact List.mem_cons_of_mem _ (mem_of_startsWith s pre h.2 c hc)

theorem stripBasic_bare (s : Str) (h : ∀ c ∈ s, isJsWhitespace c = false) :
    stripBasic s = s := by
  unfold stripBasic
  rw [if_neg]
  intro hs
  have hmem : ' ' ∈ s := mem_of_startsWith s _ hs ' ' (by decide)
  have := h ' ' hmem
  revert this
  decide

theorem indexOf_colon (identifier secret : Str) (h : ':' ∉ identifier) :
    indexOf (identifier ++ ':' :: secret) ':' = identifier.length := by
  unfold indexOf
  rw [if_pos (by simp)]
  congr 1
  induction identifier with
  | nil => simp [List.indexOf_cons_self]
  | cons c cs ih =>
    have hc : c ≠ ':' := fun e => h (by simp [e])
    have hcs : ':' ∉ cs := fun e => h (List.mem_cons_of_mem _ e)
    simp only [List.cons_append, List.length_cons]
    rw [List.indexOf_cons_ne _ hc, ih hcs]

theorem splitCredential_join (identifier secret : Str) (h : ':' ∉ identifier) :
    splitCredential (identifier ++ ':' :: secret) = ⟨identifier, secret⟩ := by
  unfold splitCredential
  rw [indexOf_colon identifier secret h]
  congr 1
  · unfold substring
    simp
  · have : ((identifier.length : Int) + 1) = ((identifier.length + 1 : Nat) : Int) := by simp
    rw [this, substringFrom_eq_drop]
    simp

/-- The credential parsed from the base64 encoding of `identifier:secret`, with or
without the `Basic ` scheme in front. -/
theorem parseBasicAuth_encoded (identifier secret : Str)
    (hid : ∀ c ∈ identifier, c.toNat < 128 ∧ c ≠ ':') (hsec : ∀ c ∈ secret, c.toNat < 128) :
    parseBasicAuth ("Basic ".toList ++ base64EncodeText (identifier ++ ':' :: secret))
        = ⟨identifier, secret⟩
      ∧ parseBasicAuth (base64EncodeText (identifier ++ ':' :: secret))
        = ⟨identifier, secret⟩ := by
  have hascii : ∀ c ∈ identifier ++ ':' :: secret, c.toNat < 128 := by
    intro c hc
    rcases List.mem_append.1 hc with hc | hc
    · exact (hid c hc).1
    · rcases List.mem_cons.1 hc with hc | hc
      · subst hc
        decide
      · exact hsec c hc
  have hbytes : ∀ b ∈ (identifier ++ ':' :: secret).map Char.toNat, b < 256 := by
    intro b hb
    obtain ⟨c, hc, rfl⟩ := List.mem_map.1 hb
    have := hascii c hc
    omega
  have hclean := base64Encode_chars _ hbytes
  have hcolon : ':' ∉ identifier := fun hm => (hid ':' hm).2 rfl
  have hdec : bufferToAscii (bufferFromBase64 (base64EncodeText (identifier ++ ':' :: secret)))
      = identifier ++ ':' :: secret := by
    unfold base64EncodeText
    rw [bufferFromBase64_base64Encode _ hbytes, bufferToAscii_codes _ hascii]
  constructor
  · unfold parseBasicAuth decodeAuth
    rw [show base64EncodeText (identifier ++ ':' :: secret)
        = base64Encode ((identifier ++ ':' :: secret).map Char.toNat) from rfl,
      stripBasic_prefixed _ hclean]
    rw [show base64Encode ((identifier ++ ':' :: secret).map Char.toNat)
        = base64EncodeText (identifier ++ ':' :: secret) from rfl, hdec]
    exact splitCredential_join identifier secret hcolon
  · unfold parseBasicAuth decodeAuth
    rw [show base64EncodeText (identifier ++ ':' :: secret)
        = base64Encode ((identifier ++ ':' :: secret).map Char.toNat) from rfl,
      stripBasic_bare _ hclean]
    rw [show base64Encode ((identifier ++ ':' :: secret).map Char.toNat)
        = base64EncodeText (identifier ++ ':' :: secret) from rfl, hdec]
    exact splitCredential_join identifier secret hcolon

/-! ## Lemmas on objects and on the middleware -/

theorem getField_setField_same (fs : Fields) (k : String) (v : JsVal) :
    getField (setField fs k v) k = v := by
  induction fs with
  | nil => simp [setField, getField]
  | cons p rest ih =>
    obtain ⟨k', v'⟩ := p
    by_cases hk : k' = k
    · simp [setField, getField, hk]
    · simp [setField, getField, hk, ih]

theorem getField_setField_ne (fs : Fields) (k k' : String) (v : JsVal) (h : k' ≠ k) :
    getField (setField fs k v) k' = getField fs k' := by
  induction fs with
  | nil => simp [setField, getField, Ne.symm h]
  | cons p rest ih =>
    obtain ⟨k₀, v₀⟩ := p
    by_cases hk : k₀ = k
    · subst hk
      simp [setField, getField, Ne.symm h]
    · by_cases hk' : k₀ = k'
      · subst hk'
        simp [setField, getField, hk]
      · simp [setField, getField, hk, hk', ih]

theorem generateJWT_doc (jwt : JwtLib) (env : Env) (u : User) (secret : Str)
    (hs : env.secret = some secret) :
    generateJWT jwt env (.doc u)
      = .ok (jwt.sign (.obj [("userId", .str u.id)]) secret oneDay env.now) := by
  simp [generateJWT, getProp, hs]

theorem splitCredential_no_colon (text : Str) (h : ':' ∉ text) :
    splitCredential text = ⟨[], text⟩ := by
  unfold splitCredential indexOf
  rw [if_neg h]
  congr 1
  · simp [substring]
  · have : (-1 + 1 : Int) = ((0 : Nat) : Int) := by simp
    rw [this, substringFrom_eq_drop]
    simp

theorem getProp_error_name (v : JsVal) (k : String) (e : JsError)
    (h : getProp v k = .error e) : e.name = "TypeError" := by
  cases v <;> simp [getProp, typeError] at h <;> (subst h; rfl)

theorem getProp_of_truthy (v : JsVal) (k : String) (h : truthy v = true) :
    ∃ w, getProp v k = .ok w := by
  cases v <;> simp [truthy] at h <;> simp [getProp]

theorem findOneById_mem (db : UserModel) (id : JsVal) (u : User)
    (h : db.findOneById id = some u) : u ∈ db.users := by
  unfold UserModel.findOneById at h
  split at h
  · exact List.mem_of_find?_eq_some h
  · cases h

theorem validateJWT_ok_mem (jwt : JwtLib) (db : UserModel) (env : Env) (token : Str)
    (effects : List Effect) (v : Validated)
    (h : validateJWT jwt db env token = (effects, .ok v)) : v.tokenUser ∈ db.users := by
  unfold validateJWT at h
  split at h
  · cases h
  · split at h
    · cases h
    · split at h
      · cases h
      · split at h
        · cases h
        · split at h
          · cases h
          · rename_i hfind
            simp only [Prod.mk.injEq, Except.ok.injEq] at h
            rw [← h.2]
            exact findOneById_mem db _ _ hfind

theorem validateJWT_error_after_verify (jwt : JwtLib) (db : UserModel) (env : Env)
    (token secret : Str) (claims : JsVal) (e : JsError) (hs : env.secret = some secret)
    (hverify : jwt.verify token secret env.now = .ok claims)
    (h : (validateJWT jwt db env token).2 = .error e) :
    e.name ≠ "TokenExpiredError" := by
  simp only [validateJWT, hs, hverify] at h
  split at h
  · rename_i e' h1
    simp only [Except.error.injEq] at h
    subst h
    rw [getProp_error_name _ _ _ h1]
    decide
  · split at h
    · rename_i e' h1
      simp only [Except.error.injEq] at h
      subst h
      rw [getProp_error_name _ _ _ h1]
      decide
    · split at h
      · simp only [Except.error.injEq] at h
        subst h
        decide
      · cases h

theorem verifyJwt_failure (jwt : JwtLib) (db : UserModel) (env : Env) (req : Request)
    (authHeader : Str) (e : JsError) (hh : req.authorization = some authHeader)
    (hv : (validateJWT jwt db env (stripBearer authHeader)).2 = .error e) :
    (verifyJwt jwt db env req).request = req
      ∧ (verifyJwt jwt db env req).signal = .nextErr (sessionFailure e) := by
  rcases hvj : validateJWT jwt db env (stripBearer authHeader) with ⟨effects, r⟩
  rw [hvj] at hv
  simp only at hv
  subst hv
  simp [verifyJwt, hh, hvj]

theorem verifyJwt_next (jwt : JwtLib) (db : UserModel) (env : Env) (req : Request)
    (h : (verifyJwt jwt db env req).signal = .next) :
    ∃ u token, u ∈ db.users ∧ (verifyJwt jwt db env req).request
      = { req with
          authentication :=
            some (setField (setField (setField (spread req.authentication)
              "jwt" (.str token)) "id" (.str u.id)) "user" (.doc u)) } := by
  unfold verifyJwt at h ⊢
  split at h
  · cases h
  · rename_i authHeader hh
    split at h
    · cases h
    · rename_i effects v hvj
      split at h
      · cases h
      · rename_i token hgen
        refine ⟨v.tokenUser, token, validateJWT_ok_mem jwt db env _ effects v hvj, ?_⟩
        simp only [hh, hvj, hgen]

theorem verifyJwt_nextErr (jwt : JwtLib) (db : UserModel) (env : Env) (req : Request)
    (e : JsError) (h : (verifyJwt jwt db env req).signal = .nextErr e) :
    e = noAuthData ∨ e = sessionExpired ∨ e = sessionInvalid := by
  have hsf : ∀ e', sessionFailure e' = sessionExpired ∨ sessionFailure e' = sessionInvalid := by
    intro e'
    unfold sessionFailure
    split
    · exact Or.inl rfl
    · exact Or.inr rfl
  unfold verifyJwt at h
  split at h
  · simp only [Signal.nextErr.injEq] at h
    exact Or.inl h.symm
  · split at h
    · simp only [Signal.nextErr.injEq] at h
      rw [← h]
      exact Or.inr (hsf _)
    · split at h
      · simp only [Signal.nextErr.injEq] at h
        rw [← h]
        exact Or.inr (hsf _)
      · cases h

theorem verifyBasicUserAuth_nextErr (db : UserModel) (req : Request) (e : JsError)
    (h : (verifyBasicUserAuth db req).signal = .nextErr e) :
    e = noAuthData ∨ e = noUserFound ∨ e = noUserMatches := by
  unfold verifyBasicUserAuth at h
  split at h
  · simp only [Signal.nextErr.injEq] at h
    exact Or.inl h.symm
  · simp only at h
    split at h
    · simp only [Signal.nextErr.injEq] at h
      exact Or.inr (Or.inl h.symm)
    · split at h
      · cases h
      · simp only [Signal.nextErr.injEq] at h
        exact Or.inr (Or.inr h.symm)

theorem findByIdSelect_fieldNames (db : UserModel) (id : Str) :
    "password" ∉ fieldNames (db.findByIdSelect id ["password", "salt"])
      ∧ "salt" ∉ fieldNames (db.findByIdSelect id ["password", "salt"]) := by
  unfold UserModel.findByIdSelect
  split
  · simp [fieldNames, User.fields, List.filter]
  · simp [fieldNames]

theorem createJwt_of_user (jwt : JwtLib) (env : Env) (req : Request) (secret : Str)
    (hs : env.secret = some secret) (ht : truthy (authUser req) = true) :
    ∃ token, generateJWT jwt env (authUser req) = .ok token
      ∧ createJwt jwt env req
        = ⟨{ req with
              authentication := some (setField (spread req.authentication) "jwt" (.str token)) },
            .next, [.mint token]⟩ := by
  obtain ⟨w, hw⟩ := getProp_of_truthy (authUser req) "id" ht
  have hgen : generateJWT jwt env (authUser req)
      = .ok (jwt.sign (.obj [("userId", w)]) secret oneDay env.now) := by
    simp [generateJWT, hw, hs]
  refine ⟨_, hgen, ?_⟩
  simp [createJwt, ht, hgen]

theorem createJwt_without_user (jwt : JwtLib) (env : Env) (req : Request)
    (ht : truthy (authUser req) = false) :
    createJwt jwt env req = ⟨req, .nextErr createJwtError, []⟩ := by
  simp [createJwt, ht]

theorem verifyBasicUserAuth_success (db : UserModel) (req : Request) (authHeader : Str)
    (u : User) (hh : req.authorization = some authHeader)
    (hu : db.findOneByEmail (parseBasicAuth authHeader).email = some u)
    (hp : db.isMatchingPassword u (parseBasicAuth authHeader).password = true) :
    verifyBasicUserAuth db req
      = ⟨{ req with
            authentication :=
              some (setField (setField (spread req.authentication) "id" (.str u.id))
                "user" (.doc u)) },
          .next,
          [.findOneByEmail (parseBasicAuth authHeader).email,
            .isMatchingPassword u (parseBasicAuth authHeader).password]⟩ := by
  simp [verifyBasicUserAuth, hh, hu, hp]

theorem register_checked (jwt : JwtLib) (db : UserModel) (env : Env) (req : Request)
    (h : (lengthAtMost req.body.email 3 || lengthAtMost req.body.password 8) = false) :
    (register jwt db env req).effects.head?
      = some (.create req.body.email req.body.password) := by
  unfold register
  simp only [h]
  cases db.create req.body.email req.body.password with
  | error e => rfl
  | ok newUser =>
    simp only
    cases generateJWT jwt env (.doc newUser) <;> rfl

theorem getTargetUser_own (db : UserModel) (req : Request) (fs : Fields) (u : User)
    (ha : req.authentication = some fs) (hid : getField fs "id" = .str u.id)
    (huser : getField fs "user" = .doc u) (heq : u.id = req.targetUserId) :
    (getTargetUser db req).reply.data = some (.doc u) := by
  simp [getTargetUser, ha, hid, huser, idEqualsParam, heq, Reply.data, getField]

theorem getTargetUser_other (db : UserModel) (req : Request) (fs : Fields) (u : User)
    (ha : req.authentication = some fs) (hid : getField fs "id" = .str u.id)
    (hne : u.id ≠ req.targetUserId) :
    (getTargetUser db req).reply.data
      = some (db.findByIdSelect req.targetUserId ["password", "salt"]) := by
  simp [getTargetUser, ha, hid, idEqualsParam, hne, Reply.data, getField]

/-! ## The claims -/

/-- C1, as the code behaves: with the signing secret configured and a signing library
that verifies the token just minted for user `u` and returns its claims, none of
them named `validJwt`, `generateJWT(u)` returns a token and `validateJWT` of that
token does not resolve to `u`: it throws a `TypeError` at `validJwt.validJwt.userId`
before any store lookup. -/
theorem validateJWT_generateJWT_throws (jwt : JwtLib) (db : UserModel) (env : Env) (u : User)
    (secret : Str) (claims : Fields) (hs : env.secret = some secret)
    (hverify : jwt.verify (jwt.sign (.obj [("userId", .str u.id)]) secret oneDay env.now)
      secret env.now = .ok (.obj claims))
    (hclaims : getField claims "validJwt" = .undefined) :
    ∃ token, generateJWT jwt env (.doc u) = .ok token
      ∧ validateJWT jwt db env token = ([], .error (typeError "undefined" "userId")) := by
  refine ⟨_, generateJWT_doc jwt env u secret hs, ?_⟩
  simp [validateJWT, hs, hverify, getProp, hclaims]

/-- Witness of C1: alice is stored, the secret is set, the example library verifies
her fresh token, and validating it throws the `TypeError`. -/
theorem validateJWT_generateJWT_throws_witness :
    alice ∈ sampleDb.users
      ∧ ∃ token, generateJWT sampleJwt sampleEnv (.doc alice) = .ok token
        ∧ validateJWT sampleJwt sampleDb sampleEnv token
          = ([], .error (typeError "undefined" "userId")) :=
  ⟨by decide,
    validateJWT_generateJWT_throws sampleJwt sampleDb sampleEnv alice "s3cret".toList
      [("userId", .str "u1".toList), ("iat", .num 1000), ("exp", .num 87400)] rfl rfl rfl⟩

/-- C2, counterexample: the header carries `alice@x.co:wrong`; in a store without
alice no user has the email, in the example store alice exists and `wrong` is not
her password, and the two errors `verifyBasicUserAuth` passes to `next` are not
identical: they are both named `Error` and their messages differ. -/
theorem unknown_email_and_wrong_password_differ :
    parseBasicAuth "Basic YWxpY2VAeC5jbzp3cm9uZw==".toList
        = ⟨"alice@x.co".toList, "wrong".toList⟩
      ∧ UserModel.findOneByEmail { sampleDb with users := [bob] } "alice@x.co".toList = none
      ∧ sampleDb.findOneByEmail "alice@x.co".toList = some alice
      ∧ sampleDb.isMatchingPassword alice "wrong".toList = false
      ∧ (verifyBasicUserAuth { sampleDb with users := [bob] }
          (requestWith "Basic YWxpY2VAeC5jbzp3cm9uZw==".toList)).signal = .nextErr noUserFound
      ∧ (verifyBasicUserAuth sampleDb
          (requestWith "Basic YWxpY2VAeC5jbzp3cm9uZw==".toList)).signal = .nextErr noUserMatches
      ∧ noUserFound.name = noUserMatches.name
      ∧ noUserFound ≠ noUserMatches := by
  refine ⟨by decide, by decide, by decide, by decide, by decide, by decide, by decide,
    by decide⟩

/-- C2, amended: for every credential header both authentication failures are
passed to `next` as plain `Error`s and leave the request unchanged, with the message
`No user found for the given auth data.` when no user has the email and the
message `No user matches the given auth data.` when the user exists and
`isMatchingPassword` returns false. -/
theorem authFailure_errors (db : UserModel) (req : Request) (authHeader : Str)
    (hh : req.authorization = some authHeader) :
    (db.findOneByEmail (parseBasicAuth authHeader).email = none →
        (verifyBasicUserAuth db req).signal
            = .nextErr ⟨"Error", "No user found for the given auth data."⟩
          ∧ (verifyBasicUserAuth db req).request = req)
      ∧ ∀ u, db.findOneByEmail (parseBasicAuth authHeader).email = some u →
          db.isMatchingPassword u (parseBasicAuth authHeader).password = false →
          (verifyBasicUserAuth db req).signal
              = .nextErr ⟨"Error", "No user matches the given auth data."⟩
            ∧ (verifyBasicUserAuth db req).request = req := by
  constructor
  · intro hnone
    simp [verifyBasicUserAuth, hh, hnone, mkError, noUserFound]
  · intro u hu hp
    simp [verifyBasicUserAuth, hh, hu, hp, mkError, noUserMatches]

/-- Witness of the amended C2, at the unknown carol and at alice with a wrong password. -/
theorem authFailure_errors_witness :
    (verifyBasicUserAuth sampleDb (requestWith "Basic Y2Fyb2xAeC5jbzpwYTpzcw==".toList)).signal
        = .nextErr ⟨"Error", "No user found for the given auth data."⟩
      ∧ (verifyBasicUserAuth sampleDb (requestWith "Basic YWxpY2VAeC5jbzp3cm9uZw==".toList)).signal
        = .nextErr ⟨"Error", "No user matches the given auth data."⟩ :=
  ⟨((authFailure_errors sampleDb (requestWith "Basic Y2Fyb2xAeC5jbzpwYTpzcw==".toList) _ rfl).1
      (by decide)).1,
    ((authFailure_errors sampleDb (requestWith "Basic YWxpY2VAeC5jbzp3cm9uZw==".toList) _ rfl).2
      alice (by decide) (by decide)).1⟩

/-- C4: for every ASCII identifier without a colon and every ASCII secret, the
credential parsed from `"Basic " + base64(identifier + ":" + secret)`, and from the
same base64 text without the scheme, has the identifier as email and the secret as
password. -/
theorem credential_decoding_inverts_encoding (identifier secret : Str)
    (hid : ∀ c ∈ identifier, c.toNat < 128 ∧ c ≠ ':') (hsec : ∀ c ∈ secret, c.toNat < 128) :
    parseBasicAuth ("Basic ".toList ++ base64EncodeText (identifier ++ ':' :: secret))
        = ⟨identifier, secret⟩
      ∧ parseBasicAuth (base64EncodeText (identifier ++ ':' :: secret))
        = ⟨identifier, secret⟩ :=
  parseBasicAuth_encoded identifier secret hid hsec

/-- Witness of C4, at the identifier `alice@x.co` and the secret `pa:ss`. -/
theorem credential_decoding_inverts_encoding_witness :
    base64EncodeText ("alice@x.co".toList ++ ':' :: "pa:ss".toList)
        = "YWxpY2VAeC5jbzpwYTpzcw==".toList
      ∧ parseBasicAuth ("Basic ".toList
          ++ base64EncodeText ("alice@x.co".toList ++ ':' :: "pa:ss".toList))
        = ⟨"alice@x.co".toList, "pa:ss".toList⟩
      ∧ parseBasicAuth (base64EncodeText ("alice@x.co".toList ++ ':' :: "pa:ss".toList))
        = ⟨"alice@x.co".toList, "pa:ss".toList⟩ :=
  ⟨by decide,
    credential_decoding_inverts_encoding "alice@x.co".toList "pa:ss".toList (by decide)
      (by decide)⟩

/-- C5, counterexample: the header `YWJj` decodes to `abc`, which has no colon, and
`verifyBasicUserAuth` queries the store for the empty email and passes on the
error of an unknown user, not an error of a malformed credential. -/
theorem missing_separator_not_rejected :
    decodeAuth "YWJj".toList = "abc".toList
      ∧ ':' ∉ decodeAuth "YWJj".toList
      ∧ (verifyBasicUserAuth sampleDb (requestWith "YWJj".toList)).effects
        = [.findOneByEmail []]
      ∧ (verifyBasicUserAuth sampleDb (requestWith "YWJj".toList)).signal
        = .nextErr noUserFound := by
  refine ⟨by decide, by decide, rfl, by decide⟩

/-- C5, amended: for every credential header whose decoded text has no colon,
`verifyBasicUserAuth` forms the credential with the empty email and the whole
decoded text as password, queries the store for the empty email first, and, when
no user has the empty email, passes on `No user found for the given auth data.` -/
theorem missing_separator_credential (db : UserModel) (req : Request) (authHeader : Str)
    (hh : req.authorization = some authHeader) (hcolon : ':' ∉ decodeAuth authHeader) :
    parseBasicAuth authHeader = ⟨[], decodeAuth authHeader⟩
      ∧ (verifyBasicUserAuth db req).effects.head? = some (.findOneByEmail [])
      ∧ (db.findOneByEmail [] = none →
          (verifyBasicUserAuth db req).signal = .nextErr noUserFound) := by
  have hparse : parseBasicAuth authHeader = ⟨[], decodeAuth authHeader⟩ :=
    splitCredential_no_colon _ hcolon
  refine ⟨hparse, ?_, ?_⟩
  · simp only [verifyBasicUserAuth, hh, hparse]
    cases db.findOneByEmail [] with
    | none => rfl
    | some u =>
      by_cases hm : db.isMatchingPassword u (decodeAuth authHeader) = true
      · simp [hm]
      · simp [hm]
  · intro hnone
    simp [verifyBasicUserAuth, hh, hparse, hnone]

/-- Witness of the amended C5, at the header `YWJj`. -/
theorem missing_separator_credential_witness :
    parseBasicAuth "YWJj".toList = ⟨[], decodeAuth "YWJj".toList⟩
      ∧ (verifyBasicUserAuth sampleDb (requestWith "YWJj".toList)).effects.head?
        = some (.findOneByEmail [])
      ∧ (verifyBasicUserAuth sampleDb (requestWith "YWJj".toList)).signal
        = .nextErr noUserFound :=
  have h := missing_separator_credential sampleDb (requestWith "YWJj".toList) "YWJj".toList rfl
    (by decide)
  ⟨h.1, h.2.1, h.2.2 (by decide)⟩

/-- C3, counterexample: a token whose verified payload nests alice's id under
`validJwt` passes `verifyJwt`; alice then views herself and the `data` of the reply
is her stored document, which has the `password` and the `salt` field. -/
theorem own_view_exposes_secret :
    (verifyJwt sampleJwt sampleDb sampleEnv
        ⟨some "Bearer tok.nested".toList, none, "u1".toList, ⟨none, none⟩⟩).signal = .next
      ∧ (targetUserRoute sampleJwt sampleDb sampleEnv
        ⟨some "Bearer tok.nested".toList, none, "u1".toList, ⟨none, none⟩⟩).reply.data
          = some (.doc alice)
      ∧ "password" ∈ fieldNames (.doc alice) ∧ "salt" ∈ fieldNames (.doc alice) := by
  refine ⟨rfl, rfl, by decide, by decide⟩

/-- C3, amended: for every request that `verifyJwt` lets through, the requester is a
stored user `u`, written to the authentication as `id` and `user`; when the target id is another id, the `data` of the reply has
neither the `password` nor the `salt` field, and when the target id is the id of
`u`, the `data` is the document of `u` as loaded by `validateJWT`, no field
removed. -/
theorem target_user_view (jwt : JwtLib) (db : UserModel) (env : Env) (req : Request)
    (h : (verifyJwt jwt db env req).signal = .next) :
    ∃ u ∈ db.users,
      (∃ fs, (verifyJwt jwt db env req).request.authentication = some fs
          ∧ getField fs "id" = .str u.id ∧ getField fs "user" = .doc u)
        ∧ (u.id = req.targetUserId →
          (targetUserRoute jwt db env req).reply.data = some (.doc u))
        ∧ (u.id ≠ req.targetUserId →
          ∃ d, (targetUserRoute jwt db env req).reply.data = some d
            ∧ "password" ∉ fieldNames d ∧ "salt" ∉ fieldNames d) := by
  obtain ⟨u, token, hu, hreq⟩ := verifyJwt_next jwt db env req h
  have hid : getField (setField (setField (setField (spread req.authentication)
      "jwt" (.str token)) "id" (.str u.id)) "user" (.doc u)) "id" = .str u.id := by
    rw [getField_setField_ne _ _ _ _ (by decide), getField_setField_same]
  have huser : getField (setField (setField (setField (spread req.authentication)
      "jwt" (.str token)) "id" (.str u.id)) "user" (.doc u)) "user" = .doc u :=
    getField_setField_same _ _ _
  have hroute : (targetUserRoute jwt db env req).reply
      = (getTargetUser db (verifyJwt jwt db env req).request).reply := by
    simp [targetUserRoute, Step.finish, h]
  rw [hroute, hreq]
  refine ⟨u, hu, ⟨_, rfl, hid, huser⟩, ?_, ?_⟩
  · intro heq
    exact getTargetUser_own db _ _ u rfl hid huser heq
  · intro hne
    exact ⟨db.findByIdSelect req.targetUserId ["password", "salt"],
      getTargetUser_other db _ _ u rfl hid hne,
      findByIdSelect_fieldNames db req.targetUserId⟩

/-- Witness of the amended C3, at the request of the counterexample and at the same
requester viewing bob. -/
theorem target_user_view_witness :
    (∃ u ∈ sampleDb.users,
      (∃ fs, (verifyJwt sampleJwt sampleDb sampleEnv
            ⟨some "Bearer tok.nested".toList, none, "u1".toList, ⟨none, none⟩⟩).request.authentication
            = some fs
          ∧ getField fs "id" = .str u.id ∧ getField fs "user" = .doc u)
        ∧ (u.id = "u1".toList →
          (targetUserRoute sampleJwt sampleDb sampleEnv
            ⟨some "Bearer tok.nested".toList, none, "u1".toList, ⟨none, none⟩⟩).reply.data
            = some (.doc u))
        ∧ (u.id ≠ "u1".toList →
          ∃ d, (targetUserRoute sampleJwt sampleDb sampleEnv
              ⟨some "Bearer tok.nested".toList, none, "u1".toList, ⟨none, none⟩⟩).reply.data
              = some d
            ∧ "password" ∉ fieldNames d ∧ "salt" ∉ fieldNames d))
      ∧ (targetUserRoute sampleJwt sampleDb sampleEnv
          ⟨some "Bearer tok.nested".toList, none, "u2".toList, ⟨none, none⟩⟩).reply.data
        = some (.obj [("_id", .str "u2".toList), ("email", .str "bob@x.co".toList)]) :=
  ⟨target_user_view sampleJwt sampleDb sampleEnv
      ⟨some "Bearer tok.nested".toList, none, "u1".toList, ⟨none, none⟩⟩ rfl, rfl⟩

/-- C6: for every request that carries an authorization value, when `validateJWT`
throws the error `e`, `verifyJwt` leaves the request unchanged and passes an error
to `next`: `Session expired, please log in again.` when `e` is named
`TokenExpiredError`, and otherwise the one generic message; the generic message
is the one passed when the signing secret is not configured, when the library
rejects the token with another error, and when the library accepts the token
and the validation fails afterwards (the subject is not in the store). -/
theorem verifyJwt_failure_mapping (jwt : JwtLib) (db : UserModel) (env : Env) (req : Request)
    (authHeader : Str) (e : JsError) (hh : req.authorization = some authHeader)
    (hv : (validateJWT jwt db env (stripBearer authHeader)).2 = .error e) :
    (verifyJwt jwt db env req).request = req
      ∧ (e.name = "TokenExpiredError" →
          (verifyJwt jwt db env req).signal = .nextErr sessionExpired)
      ∧ (e.name ≠ "TokenExpiredError" →
          (verifyJwt jwt db env req).signal = .nextErr sessionInvalid)
      ∧ (env.secret = none → (verifyJwt jwt db env req).signal = .nextErr sessionInvalid)
      ∧ (∀ secret e', env.secret = some secret →
          jwt.verify (stripBearer authHeader) secret env.now = .error e' →
          e'.name ≠ "TokenExpiredError" →
          (verifyJwt jwt db env req).signal = .nextErr sessionInvalid)
      ∧ (∀ secret claims, env.secret = some secret →
          jwt.verify (stripBearer authHeader) secret env.now = .ok claims →
          (verifyJwt jwt db env req).signal = .nextErr sessionInvalid) := by
  obtain ⟨hreq, hsig⟩ := verifyJwt_failure jwt db env req authHeader e hh hv
  have hother : e.name ≠ "TokenExpiredError" →
      (verifyJwt jwt db env req).signal = .nextErr sessionInvalid := by
    intro hne
    rw [hsig, sessionFailure, if_neg hne]
  refine ⟨hreq, ?_, hother, ?_, ?_, ?_⟩
  · intro hname
    rw [hsig, sessionFailure, if_pos hname]
  · intro hs
    apply hother
    simp only [validateJWT, hs, Except.error.injEq] at hv
    rw [← hv]
    decide
  · intro secret e' hs hverify hne
    apply hother
    simp only [validateJWT, hs, hverify, Except.error.injEq] at hv
    rw [← hv]
    exact hne
  · intro secret claims hs hverify
    exact hother (validateJWT_error_after_verify jwt db env _ secret claims e hs hverify hv)

/-- Witness of C6: an expired token, and a token the library does not know. -/
theorem verifyJwt_failure_mapping_witness :
    (verifyJwt sampleJwt sampleDb sampleEnv (requestWith "Bearer tok.old".toList)).signal
        = .nextErr sessionExpired
      ∧ (verifyJwt sampleJwt sampleDb sampleEnv (requestWith "Bearer forged".toList)).signal
        = .nextErr sessionInvalid
      ∧ (verifyJwt sampleJwt sampleDb sampleEnv (requestWith "Bearer forged".toList)).request
        = requestWith "Bearer forged".toList :=
  ⟨(verifyJwt_failure_mapping sampleJwt sampleDb sampleEnv
      (requestWith "Bearer tok.old".toList) "Bearer tok.old".toList
      ⟨"TokenExpiredError", "jwt expired"⟩ rfl rfl).2.1 rfl,
    (verifyJwt_failure_mapping sampleJwt sampleDb sampleEnv
      (requestWith "Bearer forged".toList) "Bearer forged".toList
      ⟨"JsonWebTokenError", "jwt malformed"⟩ rfl rfl).2.2.1 (by decide),
    (verifyJwt_failure_mapping sampleJwt sampleDb sampleEnv
      (requestWith "Bearer forged".toList) "Bearer forged".toList
      ⟨"JsonWebTokenError", "jwt malformed"⟩ rfl rfl).1⟩

/-- C7: with the signing secret configured, `createJwt` fails exactly when
`request.authentication?.user` is falsy (the authentication or the user is
missing); it then passes its error to `next`, mints no token and leaves the request
unchanged, and no error that `verifyBasicUserAuth` or `verifyJwt` passes to `next`
is that error. -/
theorem createJwt_precondition (jwt : JwtLib) (env : Env) (req : Request) (secret : Str)
    (hs : env.secret = some secret) :
    ((createJwt jwt env req).signal ≠ .next ↔ truthy (authUser req) = false)
      ∧ (req.authentication = none → truthy (authUser req) = false)
      ∧ (truthy (authUser req) = false →
          (createJwt jwt env req).signal = .nextErr createJwtError
            ∧ (createJwt jwt env req).effects = []
            ∧ (createJwt jwt env req).request = req)
      ∧ (∀ db req' e, (verifyBasicUserAuth db req').signal = .nextErr e → e ≠ createJwtError)
      ∧ (∀ jwt' db env' req' e, (verifyJwt jwt' db env' req').signal = .nextErr e →
          e ≠ createJwtError) := by
  refine ⟨?_, ?_, ?_, ?_, ?_⟩
  · constructor
    · intro hne
      by_contra ht
      obtain ⟨token, -, hc⟩ := createJwt_of_user jwt env req secret hs (by simpa using ht)
      exact hne (by rw [hc])
    · intro ht
      rw [createJwt_without_user jwt env req ht]
      simp
  · intro hnone
    simp [authUser, hnone, truthy]
  · intro ht
    rw [createJwt_without_user jwt env req ht]
    exact ⟨rfl, rfl, rfl⟩
  · intro db req' e he
    rcases verifyBasicUserAuth_nextErr db req' e he with h | h | h <;> (subst h; decide)
  · intro jwt' db env' req' e he
    rcases verifyJwt_nextErr jwt' db env' req' e he with h | h | h <;> (subst h; decide)

/-- Witness of C7, with the example secret and a request without authentication. -/
theorem createJwt_precondition_witness :
    (createJwt sampleJwt sampleEnv (requestWith "Basic YWJj".toList)).signal
        = .nextErr createJwtError
      ∧ (createJwt sampleJwt sampleEnv (requestWith "Basic YWJj".toList)).effects = []
      ∧ (createJwt sampleJwt sampleEnv (requestWith "Basic YWJj".toList)).request
        = requestWith "Basic YWJj".toList :=
  (createJwt_precondition sampleJwt sampleEnv (requestWith "Basic YWJj".toList)
    "s3cret".toList rfl).2.2.1 rfl

/-- C8: when the credential of the authorization header names a stored user `u`
whose password check accepts it, and the signing secret is configured,
`verifyBasicUserAuth` and then `createJwt` both call `next()`, and the request ends
with `authentication.id = u.id`, `authentication.user = u` and
`authentication.jwt = generateJWT(u)`, every other field of the authentication
as it was, so that the route replies with that token. -/
theorem login_flow_success (jwt : JwtLib) (db : UserModel) (env : Env) (req : Request)
    (authHeader : Str) (u : User) (secret : Str)
    (hh : req.authorization = some authHeader)
    (hu : db.findOneByEmail (parseBasicAuth authHeader).email = some u)
    (hp : db.isMatchingPassword u (parseBasicAuth authHeader).password = true)
    (hs : env.secret = some secret) :
    (verifyBasicUserAuth db req).signal = .next
      ∧ (createJwt jwt env (verifyBasicUserAuth db req).request).signal = .next
      ∧ (loginSteps jwt db env req).signal = .next
      ∧ ∃ fs token, (loginSteps jwt db env req).request.authentication = some fs
        ∧ generateJWT jwt env (.doc u) = .ok token
        ∧ getField fs "id" = .str u.id
        ∧ getField fs "user" = .doc u
        ∧ getField fs "jwt" = .str token
        ∧ (∀ k, k ≠ "id" → k ≠ "user" → k ≠ "jwt" →
            getField fs k = getField (spread req.authentication) k)
        ∧ (loginRoute jwt db env req).reply = .json (.obj [("jwt", .str token)]) := by
  have hv := verifyBasicUserAuth_success db req authHeader u hh hu hp
  have h1 : (verifyBasicUserAuth db req).signal = .next := by rw [hv]
  have hreq : (verifyBasicUserAuth db req).request
      = { req with
          authentication :=
            some (setField (setField (spread req.authentication) "id" (.str u.id))
              "user" (.doc u)) } := by rw [hv]
  have huser : authUser { req with
      authentication :=
        some (setField (setField (spread req.authentication) "id" (.str u.id))
          "user" (.doc u)) } = .doc u := getField_setField_same _ _ _
  obtain ⟨token, hgen, hc⟩ := createJwt_of_user jwt env _ secret hs
    (show truthy (authUser { req with
      authentication :=
        some (setField (setField (spread req.authentication) "id" (.str u.id))
          "user" (.doc u)) }) = true by rw [huser]; rfl)
  rw [huser] at hgen
  have h2 : (createJwt jwt env (verifyBasicUserAuth db req).request).signal = .next := by
    rw [hreq, hc]
  have hsteps : loginSteps jwt db env req
      = ⟨(createJwt jwt env (verifyBasicUserAuth db req).request).request, .next,
        (verifyBasicUserAuth db req).effects
          ++ (createJwt jwt env (verifyBasicUserAuth db req).request).effects⟩ := by
    simp only [loginSteps, Step.andThen, h1, h2]
  have hauth : (loginSteps jwt db env req).request.authentication
      = some (setField (setField (setField (spread req.authentication) "id" (.str u.id))
        "user" (.doc u)) "jwt" (.str token)) := by
    rw [hsteps, hreq, hc]
    rfl
  refine ⟨h1, h2, by rw [hsteps], ?_⟩
  refine ⟨_, token, hauth, hgen, ?_, ?_, ?_, ?_, ?_⟩
  · rw [getField_setField_ne _ _ _ _ (by decide), getField_setField_ne _ _ _ _ (by decide),
      getField_setField_same]
  · rw [getField_setField_ne _ _ _ _ (by decide), getField_setField_same]
  · exact getField_setField_same _ _ _
  · intro k h1 h2 h3
    rw [getField_setField_ne _ _ _ _ h3, getField_setField_ne _ _ _ _ h2,
      getField_setField_ne _ _ _ _ h1]
  · have hsig : (loginSteps jwt db env req).signal = .next := by rw [hsteps]
    simp only [loginRoute, Step.finish, hsig, loginHandler, hauth, getField_setField_same]

/-- Witness of C8: alice logs in with `alice@x.co:pa:ss`. -/
theorem login_flow_success_witness :
    parseBasicAuth "Basic YWxpY2VAeC5jbzpwYTpzcw==".toList
        = ⟨"alice@x.co".toList, "pa:ss".toList⟩
      ∧ (loginSteps sampleJwt sampleDb sampleEnv
          (requestWith "Basic YWxpY2VAeC5jbzpwYTpzcw==".toList)).signal = .next
      ∧ (loginRoute sampleJwt sampleDb sampleEnv
          (requestWith "Basic YWxpY2VAeC5jbzpwYTpzcw==".toList)).reply
        = .json (.obj [("jwt", .str "tok.u1.87400".toList)]) :=
  have h := login_flow_success sampleJwt sampleDb sampleEnv
    (requestWith "Basic YWxpY2VAeC5jbzpwYTpzcw==".toList) "Basic YWxpY2VAeC5jbzpwYTpzcw==".toList
    alice "s3cret".toList rfl (by decide) (by decide) rfl
  ⟨by decide, h.2.2.1, rfl⟩

/-- C9: for every body whose email and password are strings, the handler of
`/register` fails with `Invalid user registration data provided.` without calling
the `create` of the store if and only if the email has at most 3 code units or the
password at most 8. -/
theorem register_validation (jwt : JwtLib) (db : UserModel) (env : Env) (req : Request)
    (email password : Str) (hb : req.body = ⟨some email, some password⟩) :
    ((register jwt db env req).reply = .nextErr invalidRegistration
        ∧ ∀ e p, Effect.create e p ∉ (register jwt db env req).effects)
      ↔ (jsLength email ≤ 3 ∨ jsLength password ≤ 8) := by
  by_cases hc : jsLength email ≤ 3 ∨ jsLength password ≤ 8
  · have hcheck : (lengthAtMost req.body.email 3 || lengthAtMost req.body.password 8) = true := by
      simpa [hb, lengthAtMost] using hc
    have hr : register jwt db env req = ⟨.nextErr invalidRegistration, []⟩ := by
      simp only [register, hcheck, if_true]
    simp [hr, hc]
  · have hcheck : (lengthAtMost req.body.email 3 || lengthAtMost req.body.password 8) = false := by
      have : ¬ ((lengthAtMost req.body.email 3 || lengthAtMost req.body.password 8) = true) := by
        simpa [hb, lengthAtMost] using hc
      simpa using this
    have hhead := register_checked jwt db env req hcheck
    have hmem : Effect.create req.body.email req.body.password
        ∈ (register jwt db env req).effects := List.mem_of_mem_head? hhead
    constructor
    · intro h
      exact absurd hmem (h.2 _ _)
    · intro h
      exact absurd h hc

/-- Witness of C9: `ab@x.co` with `longenough1` is accepted and a user is created;
`ab@x.co` with `short` is rejected and nothing is created. -/
theorem register_validation_witness :
    (register sampleJwt sampleDb sampleEnv
        ⟨none, none, [], ⟨some "ab@x.co".toList, some "short".toList⟩⟩).reply
        = .nextErr invalidRegistration
      ∧ (∀ e p, Effect.create e p ∉ (register sampleJwt sampleDb sampleEnv
          ⟨none, none, [], ⟨some "ab@x.co".toList, some "short".toList⟩⟩).effects)
      ∧ (register sampleJwt sampleDb sampleEnv
          ⟨none, none, [], ⟨some "ab@x.co".toList, some "longenough1".toList⟩⟩).effects
        = [.create (some "ab@x.co".toList) (some "longenough1".toList),
            .mint "tok.u3.87400".toList]
      ∧ ¬ (jsLength "ab@x.co".toList ≤ 3 ∨ jsLength "longenough1".toList ≤ 8) :=
  have h := (register_validation sampleJwt sampleDb sampleEnv
    ⟨none, none, [], ⟨some "ab@x.co".toList, some "short".toList⟩⟩ "ab@x.co".toList
    "short".toList rfl).2 (Or.inr (by decide))
  ⟨h.1, h.2, rfl, by decide⟩

/-- C10: for every body that omits the email or omits the password, the other field,
if present, being long enough, the validation check of `/register` does not
reject the body and the handler calls the `create` of the store with the body's
fields, the omitted one `undefined`. -/
theorem register_missing_field (jwt : JwtLib) (db : UserModel) (env : Env) (req : Request)
    (h : (req.body.email = none ∧ ∀ p, req.body.password = some p → 8 < jsLength p)
      ∨ (req.body.password = none ∧ ∀ e, req.body.email = some e → 3 < jsLength e)) :
    (lengthAtMost req.body.email 3 || lengthAtMost req.body.password 8) = false
      ∧ (register jwt db env req).effects.head?
        = some (.create req.body.email req.body.password) := by
  have hcheck : (lengthAtMost req.body.email 3 || lengthAtMost req.body.password 8) = false := by
    rcases h with ⟨he, hp⟩ | ⟨hp, he⟩
    · rw [he]
      cases hpw : req.body.password with
      | none => rfl
      | some p =>
        have := hp p hpw
        simp [lengthAtMost]
        omega
    · rw [hp]
      cases hem : req.body.email with
      | none => rfl
      | some e =>
        have := he e hem
        simp [lengthAtMost]
        omega
  exact ⟨hcheck, register_checked jwt db env req hcheck⟩

/-- Witness of C10: a body with only the password `longenough1`. -/
theorem register_missing_field_witness :
    (register sampleJwt sampleDb sampleEnv
        ⟨none, none, [], ⟨none, some "longenough1".toList⟩⟩).effects.head?
        = some (.create none (some "longenough1".toList))
      ∧ (register sampleJwt sampleDb sampleEnv
        ⟨none, none, [], ⟨none, some "longenough1".toList⟩⟩).reply
        = .nextErr (mkError "User validation failed") :=
  ⟨(register_missing_field sampleJwt sampleDb sampleEnv
      ⟨none, none, [], ⟨none, some "longenough1".toList⟩⟩
      (Or.inl ⟨rfl, fun p hp => by
        have : p = "longenough1".toList := (Option.some.inj hp).symm
        subst this
        decide⟩)).2, rfl⟩

end AdvancedExpress
